import Mathlib

/-!
Shallow embedding of the ESP32 home-lighting controller (final snapshot of the
sketch): the `LED`, `SensorLDR`, `Potenciometro` and `Boton` device classes, the
`SistemaModos` mode machine, and the `loop()` driver.  Hardware side effects
(`pinMode`, `analogWrite`, `digitalWrite`, serial prints, the LCD wire protocol)
are out of scope; pin reads and the millisecond clock are passed in as explicit
inputs, and each mutating method returns the updated object.
-/

namespace Casa

/-- Configuration constant `UMBRAL_LDR`: readings at or below 400 count as dark. -/
def UMBRAL_LDR : Int := 400

/-- Modulus of the 32-bit unsigned millisecond counter (`unsigned long`). -/
def UINT32_MOD : Nat := 4294967296

/-- Elapsed time `millis() - last` as computed with 32-bit unsigned subtraction.
`now` and `last` are ideal (unbounded) times; the hardware sees them mod 2^32. -/
def elapsedMillis (now last : Nat) : Nat :=
  (now % UINT32_MOD + (UINT32_MOD - last % UINT32_MOD)) % UINT32_MOD

/-- Arduino `constrain(v, lo, hi)`. -/
def constrain (v lo hi : Int) : Int :=
  if v < lo then lo else if v > hi then hi else v

/-- Arduino `map(x, in_min, in_max, out_min, out_max)`; C++ integer division
truncates toward zero, hence `Int.tdiv`. -/
def arduinoMap (x inMin inMax outMin outMax : Int) : Int :=
  Int.tdiv ((x - inMin) * (outMax - outMin)) (inMax - inMin) + outMin

/-- State of one `LED` object: cached PWM level and on flag.  The `pin` field
only feeds `pinMode`/`analogWrite` (hardware effects) and is omitted. -/
structure LED where
  brillo : Int
  encendido : Bool
  deriving Repr, DecidableEq

/-- Constructor `LED(p, n)`: `brillo(0), encendido(false)`. -/
def LED.nuevo : LED := { brillo := 0, encendido := false }

/-- Method `LED::escribir`: clamp to 0..255, store, refresh the on flag. -/
def LED.escribir (l : LED) (valor : Int) : LED :=
  let l1 := { l with brillo := constrain valor 0 255 }
  { l1 with encendido := decide (l1.brillo > 0) }

/-- Method `LED::encender`: `escribir(255)` then force the flag on. -/
def LED.encender (l : LED) : LED := { l.escribir 255 with encendido := true }

/-- Method `LED::apagar`: `escribir(0)` then force the flag off. -/
def LED.apagar (l : LED) : LED := { l.escribir 0 with encendido := false }

/-- Method `LED::alternar`: toggle depending on the current flag. -/
def LED.alternar (l : LED) : LED := if l.encendido then l.apagar else l.encender

/-- Method `LED::estaEncendido`. -/
def LED.estaEncendido (l : LED) : Bool := l.encendido

/-- Method `LED::setBrillo`, an alias of `escribir`. -/
def LED.setBrillo (l : LED) (valor : Int) : LED := l.escribir valor

/-- Method `LED::leer`: the cached brightness. -/
def LED.leer (l : LED) : Int := l.brillo

/-- Method `SensorLDR::esOscuro`, with the analog sample passed in for `leer()`. -/
def SensorLDR.esOscuro (valorLDR : Int) : Bool := decide (valorLDR ≤ UMBRAL_LDR)

/-- Method `Potenciometro::getModo`, with the analog sample passed in for `leer()`:
map 0..4095 onto 0..6 and constrain to the valid range 0..5. -/
def Potenciometro.getModo (valor : Int) : Int :=
  let modo := arduinoMap valor 0 4095 0 6
  constrain modo 0 5

/-- State of one `Boton` object.  `HIGH` is `true`, `LOW` is `false`. -/
structure Boton where
  pin : Int
  estadoAnterior : Bool
  ultimoDebounce : Nat
  deriving Repr, DecidableEq

/-- Constructor `Boton(p, n)`: `estadoAnterior(HIGH), ultimoDebounce(0)`. -/
def Boton.nuevo (p : Int) : Boton :=
  { pin := p, estadoAnterior := true, ultimoDebounce := 0 }

/-- Method `Boton::presionado`; `actual` is the level `digitalRead` yields this
poll and `now` is `millis()`.  Returns the press event plus the updated state. -/
def Boton.presionado (b : Boton) (actual : Bool) (now : Nat) : Bool × Boton :=
  if b.pin = 0 then (false, b)
  else
    let presion := b.estadoAnterior && !actual
    if presion && decide (elapsedMillis now b.ultimoDebounce > 50) then
      (true, { b with estadoAnterior := actual, ultimoDebounce := now })
    else
      (false, { b with estadoAnterior := actual })

/-- Poll a button over a sequence of `(level, time)` samples, collecting the
returned press events. -/
def Boton.presionadoRun (b : Boton) : List (Bool × Nat) → List Bool × Boton
  | [] => ([], b)
  | (lvl, t) :: rest =>
      let r := b.presionado lvl t
      let rec' := r.2.presionadoRun rest
      (r.1 :: rec'.1, rec'.2)

/-- State of the `SistemaModos` mode machine. -/
structure SistemaModos where
  modoActual : Int
  autoActivo : Bool
  forzarEncendido : Bool
  ultimoCambioFiesta : Nat
  ledFiestaActual : Int
  estadoAutoAnterior : Bool
  ultimoCambioLED : Nat
  deriving Repr, DecidableEq

/-- Constructor `SistemaModos()`. -/
def SistemaModos.nuevo : SistemaModos :=
  { modoActual := 0, autoActivo := true, forzarEncendido := false,
    ultimoCambioFiesta := 0, ledFiestaActual := 0,
    estadoAutoAnterior := false, ultimoCambioLED := 0 }

/-- The `nombresModos` name table (6 entries). -/
def SistemaModos.nombresModos : List String :=
  ["NOCHE", "LECTURA", "RELAJ", "FIESTA", "AUTO", "MANUAL"]

/-- Method `getModoActual`: index the name table at `modoActual`.  An
out-of-bounds access is undefined behaviour in C++ and is modelled as `none`. -/
def SistemaModos.getModoActual (s : SistemaModos) : Option String :=
  if s.modoActual < 0 then none
  else SistemaModos.nombresModos.get? s.modoActual.toNat

/-- Method `cambiarModo`: accept only indices 0..5, otherwise do nothing. -/
def SistemaModos.cambiarModo (s : SistemaModos) (nuevoModo : Int) : SistemaModos :=
  if nuevoModo ≥ 0 ∧ nuevoModo ≤ 5 then { s with modoActual := nuevoModo } else s

/-- Method `cambiarModoAuto`: jump to mode 4 (AUTO) and enable auto. -/
def SistemaModos.cambiarModoAuto (s : SistemaModos) : SistemaModos :=
  { s with modoActual := 4, autoActivo := true }

/-- Method `toggleAuto`. -/
def SistemaModos.toggleAuto (s : SistemaModos) : SistemaModos :=
  { s with autoActivo := !s.autoActivo }

/-- Method `toggleForzarEncendido`. -/
def SistemaModos.toggleForzarEncendido (s : SistemaModos) : SistemaModos :=
  { s with forzarEncendido := !s.forzarEncendido }

/-- Method `isAutoActivo`. -/
def SistemaModos.isAutoActivo (s : SistemaModos) : Bool := s.autoActivo

/-- Method `isForzarEncendido`. -/
def SistemaModos.isForzarEncendido (s : SistemaModos) : Bool := s.forzarEncendido

/-- Method `esModoFiesta`. -/
def SistemaModos.esModoFiesta (s : SistemaModos) : Bool := decide (s.modoActual = 3)

/-- Method `esModoManual`. -/
def SistemaModos.esModoManual (s : SistemaModos) : Bool := decide (s.modoActual = 5)

/-- Method `esModoAuto`. -/
def SistemaModos.esModoAuto (s : SistemaModos) : Bool := decide (s.modoActual = 4)

/-- Method `getBrilloPorModo(valorLDR)`, with `now` standing for `millis()`.
Returns the brightness plus the updated state (the AUTO case may record the
decision flip). -/
def SistemaModos.getBrilloPorModo (s : SistemaModos) (valorLDR : Int) (now : Nat) :
    Int × SistemaModos :=
  if s.modoActual = 0 then (51, s)
  else if s.modoActual = 1 then (102, s)
  else if s.modoActual = 2 then (76, s)
  else if s.modoActual = 3 then (0, s)
  else if s.modoActual = 4 then
    let oscuroAhora := decide (valorLDR ≤ UMBRAL_LDR)
    let debeEncender := oscuroAhora || s.forzarEncendido
    let s' :=
      if debeEncender ≠ s.estadoAutoAnterior ∧ elapsedMillis now s.ultimoCambioLED > 1000 then
        { s with estadoAutoAnterior := debeEncender, ultimoCambioLED := now }
      else s
    ((if debeEncender then 255 else 0), s')
  else if s.modoActual = 5 then (-1, s)
  else (100, s)

/-- Replace the element at an index by `f` of it, leaving the list unchanged
when the index is out of range (models an in-bounds C++ array write). -/
def listModify {α : Type} (f : α → α) : Nat → List α → List α
  | _, [] => []
  | 0, x :: xs => f x :: xs
  | n + 1, x :: xs => x :: listModify f n xs

/-- Method `manejarModoFiesta(leds, totalLEDs)`: every time more than 200 ms
have elapsed, switch every LED off, switch on the LED at `ledFiestaActual`, and
advance the index modulo the number of LEDs (C++ `%` is `Int.tmod`). -/
def SistemaModos.manejarModoFiesta (s : SistemaModos) (leds : List LED) (now : Nat) :
    SistemaModos × List LED :=
  if elapsedMillis now s.ultimoCambioFiesta > 200 then
    let apagados := leds.map LED.apagar
    let encendidos := listModify LED.encender s.ledFiestaActual.toNat apagados
    ({ s with ledFiestaActual := Int.tmod (s.ledFiestaActual + 1) (leds.length : Int),
              ultimoCambioFiesta := now }, encendidos)
  else (s, leds)

/-- The `loop()` branch serving button P4 (the force-toggle shortcut): when a
press is reported, either just toggle the force flag (already in AUTO) or jump
to AUTO and toggle the force flag (compound transition). -/
def atajoForzarAuto (s : SistemaModos) : SistemaModos :=
  if s.esModoAuto then s.toggleForzarEncendido
  else s.cambiarModoAuto.toggleForzarEncendido

/-- Global mutable state touched by `loop()`: the mode machine, the 8 LEDs and
the 9 buttons. -/
structure LoopState where
  modos : SistemaModos
  leds : List LED
  botones : List Boton
  deriving Repr, DecidableEq

/-- Inputs consumed by one `loop()` iteration: the LDR sample, the
potentiometer sample, the digital level of each of the 9 buttons, and the
millisecond clock (one value per cycle). -/
structure LoopInput where
  valorLDR : Int
  potValor : Int
  niveles : List Bool
  now : Nat
  deriving Repr, DecidableEq

/-- GPIO pins of the 9 buttons created in `setup()` (all nonzero). -/
def pinesBotones : List Int := [4, 26, 27, 14, 2, 12, 25, 33, 32]

/-- State after `setup()`: fresh mode machine, 8 LEDs switched off, 9 buttons. -/
def estadoInicial : LoopState :=
  { modos := SistemaModos.nuevo,
    leds := (List.replicate 8 LED.nuevo).map LED.apagar,
    botones := pinesBotones.map Boton.nuevo }

/-- Loop step 2: feed the potentiometer mode into `cambiarModo`. -/
def faseModoPot (st : LoopState) (potValor : Int) : LoopState :=
  { st with modos := st.modos.cambiarModo (Potenciometro.getModo potValor) }

/-- Loop step 3: poll button 0 and, on a press, run the shortcut branch. -/
def faseAtajo (st : LoopState) (nivel0 : Bool) (now : Nat) : LoopState :=
  let b0 := st.botones.getD 0 (Boton.nuevo 0)
  let r := b0.presionado nivel0 now
  let botones' := st.botones.set 0 r.2
  if r.1 then { st with modos := atajoForzarAuto st.modos, botones := botones' }
  else { st with botones := botones' }

/-- One iteration of the manual-control `for` body: poll button `i` and, on a
press, toggle LED `i-1`. -/
def faseManualPaso (st : LoopState) (niveles : List Bool) (now : Nat) (i : Nat) :
    LoopState :=
  let b := st.botones.getD i (Boton.nuevo 0)
  let r := b.presionado (niveles.getD i true) now
  let botones' := st.botones.set i r.2
  let leds' := if r.1 then listModify LED.alternar (i - 1) st.leds else st.leds
  { st with botones := botones', leds := leds' }

/-- Loop step 4: in MANUAL mode, poll buttons 1..8 against LEDs 0..7. -/
def faseManual (st : LoopState) (niveles : List Bool) (now : Nat) : LoopState :=
  if st.modos.esModoManual then
    (List.range 8).foldl (fun acc k => faseManualPaso acc niveles now (k + 1)) st
  else st

/-- Loop step 5: apply the current mode to the LEDs.  Outside MANUAL, either
run the party animation or compute `getBrilloPorModo` and, when the brightness
is non-negative and `esModoAuto() || isAutoActivo()` holds, write it to all
LEDs. -/
def faseAplicar (st : LoopState) (valorLDR : Int) (now : Nat) : LoopState :=
  if st.modos.esModoManual then st
  else if st.modos.esModoFiesta then
    let r := st.modos.manejarModoFiesta st.leds now
    { st with modos := r.1, leds := r.2 }
  else
    let r := st.modos.getBrilloPorModo valorLDR now
    if r.1 ≥ 0 then
      if r.2.esModoAuto || r.2.isAutoActivo then
        { st with modos := r.2, leds := st.leds.map (fun l => l.setBrillo r.1) }
      else { st with modos := r.2 }
    else { st with modos := r.2 }

/-- One full `loop()` iteration (steps 1-5; steps 6-8 only read state for the
LCD and the serial log). -/
def cicloLoop (st : LoopState) (inp : LoopInput) : LoopState :=
  faseAplicar
    (faseManual
      (faseAtajo (faseModoPot st inp.potValor) (inp.niveles.getD 0 true) inp.now)
      inp.niveles inp.now)
    inp.valorLDR inp.now

/-- Run `loop()` over a list of per-cycle inputs, starting from a given state. -/
def ejecutarLoop (st : LoopState) : List LoopInput → LoopState
  | [] => st
  | inp :: rest => ejecutarLoop (cicloLoop st inp) rest

/-- One public operation on a `SistemaModos` object. -/
inductive ModosOp where
  | cambiar (n : Int)
  | cambiarAuto
  | tikAuto
  | tikForzar
  | brillo (valorLDR : Int) (now : Nat)
  | fiesta (leds : List LED) (now : Nat)
  deriving Repr

/-- Apply one operation to the mode machine (only its state effect). -/
def aplicarOp (s : SistemaModos) : ModosOp → SistemaModos
  | .cambiar n => s.cambiarModo n
  | .cambiarAuto => s.cambiarModoAuto
  | .tikAuto => s.toggleAuto
  | .tikForzar => s.toggleForzarEncendido
  | .brillo v t => (s.getBrilloPorModo v t).2
  | .fiesta leds t => (s.manejarModoFiesta leds t).1

/-- Apply a sequence of operations starting from the constructor state. -/
def ejecutarOps (ops : List ModosOp) : SistemaModos :=
  ops.foldl aplicarOp SistemaModos.nuevo

/-- Iterate `manejarModoFiesta` over a list of call times. -/
def fiestaRun (s : SistemaModos) (leds : List LED) : List Nat → SistemaModos × List LED
  | [] => (s, leds)
  | t :: ts =>
      let r := s.manejarModoFiesta leds t
      fiestaRun r.1 r.2 ts

/-- Call times that each come more than 200 ms after the previous recorded
step, staying below the 32-bit clock modulus (no wraparound in between). -/
def espaciadosGt200 : Nat → List Nat → Prop
  | _, [] => True
  | u, t :: ts => u + 200 < t ∧ t < UINT32_MOD ∧ espaciadosGt200 t ts

/-- The LED list produced by a party-animation step: all off except index `m`. -/
def chaseLeds (n m : Nat) : List LED :=
  (List.range n).map (fun i => if i = m then LED.nuevo.encender else LED.nuevo.apagar)

theorem elapsedMillis_eq_sub (now last : Nat) (h1 : last ≤ now)
    (h2 : now - last < UINT32_MOD) : elapsedMillis now last = now - last := by
  unfold elapsedMillis UINT32_MOD at *
  omega

/-- C6: for every integer `v`, `LED::escribir v` stores brightness
`clamp(v, 0, 255)` and sets the on flag exactly when the stored brightness is
positive; out-of-range values are silently clamped, never rejected. -/
theorem C6_escribir_clamp_y_flag (l : LED) (v : Int) :
    (l.escribir v).brillo = max 0 (min v 255) ∧
    ((l.escribir v).encendido = true ↔ (l.escribir v).brillo > 0) := by
  constructor
  · simp only [LED.escribir, constrain]
    split_ifs <;> omega
  · simp [LED.escribir]

/-- C8: `cambiarModo` changes the mode only for indices 0..5; any out-of-range
index leaves the whole state unchanged (silent no-op, no error). -/
theorem C8_cambiarModo_rango (s : SistemaModos) (idx : Int) :
    (¬(0 ≤ idx ∧ idx ≤ 5) → s.cambiarModo idx = s) ∧
    (0 ≤ idx → idx ≤ 5 → (s.cambiarModo idx).modoActual = idx) := by
  unfold SistemaModos.cambiarModo
  constructor
  · intro h
    rw [if_neg h]
  · intro h1 h2
    rw [if_pos ⟨h1, h2⟩]

/-- Witness for C8: index 7 is ignored, index 3 is accepted. -/
theorem C8_cambiarModo_rango_witness :
    SistemaModos.nuevo.cambiarModo 7 = SistemaModos.nuevo ∧
    (SistemaModos.nuevo.cambiarModo 3).modoActual = 3 :=
  ⟨(C8_cambiarModo_rango SistemaModos.nuevo 7).1 (by decide),
   (C8_cambiarModo_rango SistemaModos.nuevo 3).2 (by decide) (by decide)⟩

/-- C2 fails as stated: the claim says the press unconditionally sets
`autoEnabled = true`, but pressing while already in AUTO only toggles the force
flag.  From the state reached by `cambiarModo 4; toggleAuto` (mode AUTO,
`autoActivo = false`) the press leaves `autoActivo` equal to `false`. -/
theorem C2_counterexample :
    (atajoForzarAuto ((SistemaModos.nuevo.cambiarModo 4).toggleAuto)).autoActivo ≠ true := by
  decide

/-- C2 amended: pressing the shortcut always ends in mode AUTO and flips
`forzarEncendido`; `autoActivo` is set to `true` only when the press happens
outside AUTO (the compound transition), and is left unchanged when the press
happens while already in AUTO. -/
theorem C2_amended_atajo (s : SistemaModos) :
    (atajoForzarAuto s).modoActual = 4 ∧
    (atajoForzarAuto s).forzarEncendido = !s.forzarEncendido ∧
    (s.esModoAuto = false → (atajoForzarAuto s).autoActivo = true) ∧
    (s.esModoAuto = true → (atajoForzarAuto s).autoActivo = s.autoActivo) := by
  unfold atajoForzarAuto SistemaModos.esModoAuto SistemaModos.toggleForzarEncendido
    SistemaModos.cambiarModoAuto
  by_cases h : s.modoActual = 4 <;> simp [h]

/-- Witness for C2 amended: pressing from the initial state (mode NOCHE) ends
with `autoActivo = true`. -/
theorem C2_amended_atajo_witness :
    (atajoForzarAuto SistemaModos.nuevo).autoActivo = true :=
  (C2_amended_atajo SistemaModos.nuevo).2.2.1 (by decide)

/-- C1: in AUTO mode, `getBrilloPorModo` returns 255 exactly when the sensor
reading is at most 400 or the force flag is set (independently of the recorded
hysteresis state), and the recorded decision state changes only when the fresh
decision differs from the recorded one and at least 1000 ms have elapsed since
the last recorded change. -/
theorem C1_auto_or_y_histeresis (s : SistemaModos) (v : Int) (now : Nat)
    (h : s.modoActual = 4) :
    ((s.getBrilloPorModo v now).1 =
      if (decide (v ≤ 400) || s.forzarEncendido) = true then 255 else 0) ∧
    (((s.getBrilloPorModo v now).2.estadoAutoAnterior ≠ s.estadoAutoAnterior ∨
      (s.getBrilloPorModo v now).2.ultimoCambioLED ≠ s.ultimoCambioLED) →
      ((decide (v ≤ 400) || s.forzarEncendido) ≠ s.estadoAutoAnterior ∧
       1000 ≤ elapsedMillis now s.ultimoCambioLED)) := by
  unfold SistemaModos.getBrilloPorModo UMBRAL_LDR
  rw [h]
  norm_num
  split_ifs with hgate
  · exact fun _ => ⟨hgate.1, by omega⟩
  · intro hc
    simp at hc

/-- Witness for C1: in AUTO with a dark reading (300) the returned brightness
matches the OR formula. -/
theorem C1_auto_or_y_histeresis_witness :
    ((SistemaModos.nuevo.cambiarModo 4).getBrilloPorModo 300 2000).1 =
      if (decide ((300 : Int) ≤ 400) ||
          (SistemaModos.nuevo.cambiarModo 4).forzarEncendido) = true then 255 else 0 :=
  (C1_auto_or_y_histeresis (SistemaModos.nuevo.cambiarModo 4) 300 2000 (by decide)).1

/-- C4: a press is reported only on a HIGH→LOW edge at least 50 ms after the
last accepted edge; the previous level is always refreshed to the level just
read; and a clean HIGH→LOW→HIGH transition yields exactly one `true`. -/
theorem C4_presionado_debounce (b : Boton) (actual : Bool) (now : Nat)
    (hpin : b.pin ≠ 0) :
    ((b.presionado actual now).1 = true →
       b.estadoAnterior = true ∧ actual = false ∧
       50 ≤ elapsedMillis now b.ultimoDebounce) ∧
    ((b.presionado actual now).2.estadoAnterior = actual) ∧
    (∀ t1 t2 t3 : Nat, b.estadoAnterior = true →
       elapsedMillis t2 b.ultimoDebounce > 50 →
       ((b.presionadoRun [(true, t1), (false, t2), (true, t3)]).1.count true = 1)) := by
  refine ⟨?_, ?_, ?_⟩
  · unfold Boton.presionado
    rw [if_neg hpin]
    dsimp only
    split_ifs with hacc
    · intro _
      rw [Bool.and_eq_true, Bool.and_eq_true] at hacc
      refine ⟨hacc.1.1, ?_, ?_⟩
      · cases actual
        · rfl
        · simp at hacc
      · have := of_decide_eq_true hacc.2
        omega
    · intro hfalse
      simp at hfalse
  · unfold Boton.presionado
    rw [if_neg hpin]
    dsimp only
    split_ifs <;> rfl
  · intro t1 t2 t3 hprev hgap
    have hd : decide (elapsedMillis t2 b.ultimoDebounce > 50) = true := decide_eq_true hgap
    simp [Boton.presionadoRun, Boton.presionado, hpin, hprev, hd]

/-- Witness for C4: the fresh level is recorded, and the clean press sequence
HIGH at 10 ms, LOW at 60 ms, HIGH at 70 ms reports exactly one press. -/
theorem C4_presionado_debounce_witness :
    ((Boton.nuevo 4).presionado false 60).2.estadoAnterior = false ∧
    (((Boton.nuevo 4).presionadoRun [(true, 10), (false, 60), (true, 70)]).1.count true = 1) :=
  ⟨(C4_presionado_debounce (Boton.nuevo 4) false 60 (by decide)).2.1,
   (C4_presionado_debounce (Boton.nuevo 4) false 60 (by decide)).2.2 10 60 70 rfl (by decide)⟩

theorem getModo_ofNat (n : Nat) :
    Potenciometro.getModo (n : Int) = constrain ((n * 6 / 4095 : Nat) : Int) 0 5 := by
  unfold Potenciometro.getModo arduinoMap
  norm_num
  rfl

theorem constrain_mono {x y lo hi : Int} (hlh : lo ≤ hi) (h : x ≤ y) :
    constrain x lo hi ≤ constrain y lo hi := by
  unfold constrain
  split_ifs <;> omega

/-- C7: the potentiometer mode is the 0..4095 reading mapped into 0..6 and
clamped to 0..5; the result always lies in 0..5 and the mapping is monotone
non-decreasing over the reading range. -/
theorem C7_getModo_rango_y_mono (raw r1 r2 : Int)
    (h0 : 0 ≤ r1) (h12 : r1 ≤ r2) (h2 : r2 ≤ 4095) :
    (0 ≤ Potenciometro.getModo raw ∧ Potenciometro.getModo raw ≤ 5) ∧
    Potenciometro.getModo r1 ≤ Potenciometro.getModo r2 := by
  constructor
  · unfold Potenciometro.getModo constrain
    dsimp only
    split_ifs <;> omega
  · obtain ⟨a, rfl⟩ := Int.eq_ofNat_of_zero_le h0
    obtain ⟨b, rfl⟩ := Int.eq_ofNat_of_zero_le (le_trans h0 h12)
    rw [getModo_ofNat, getModo_ofNat]
    refine constrain_mono (by omega) (Int.ofNat_le.mpr ?_)
    exact Nat.div_le_div_right (Nat.mul_le_mul_right 6 (Int.ofNat_le.mp h12))

/-- Witness for C7 at readings -1 (clamped into range), 100 and 4000. -/
theorem C7_getModo_rango_y_mono_witness :
    (0 ≤ Potenciometro.getModo (-1) ∧ Potenciometro.getModo (-1) ≤ 5) ∧
    Potenciometro.getModo 100 ≤ Potenciometro.getModo 4000 :=
  C7_getModo_rango_y_mono (-1) 100 4000 (by decide) (by decide) (by decide)

theorem getBrillo_modoActual (s : SistemaModos) (v : Int) (t : Nat) :
    ((s.getBrilloPorModo v t).2).modoActual = s.modoActual := by
  unfold SistemaModos.getBrilloPorModo
  dsimp only
  split_ifs <;> rfl

theorem getBrillo_autoActivo (s : SistemaModos) (v : Int) (t : Nat) :
    ((s.getBrilloPorModo v t).2).autoActivo = s.autoActivo := by
  unfold SistemaModos.getBrilloPorModo
  dsimp only
  split_ifs <;> rfl

theorem getBrillo_forzar (s : SistemaModos) (v : Int) (t : Nat) :
    ((s.getBrilloPorModo v t).2).forzarEncendido = s.forzarEncendido := by
  unfold SistemaModos.getBrilloPorModo
  dsimp only
  split_ifs <;> rfl

theorem getBrillo_nonneg (s : SistemaModos) (v : Int) (t : Nat)
    (h5 : s.modoActual ≠ 5) : 0 ≤ (s.getBrilloPorModo v t).1 := by
  unfold SistemaModos.getBrilloPorModo
  dsimp only
  split_ifs <;> simp_all

theorem fiesta_modoActual (s : SistemaModos) (leds : List LED) (t : Nat) :
    ((s.manejarModoFiesta leds t).1).modoActual = s.modoActual := by
  unfold SistemaModos.manejarModoFiesta
  dsimp only
  split_ifs <;> rfl

theorem fiesta_autoActivo (s : SistemaModos) (leds : List LED) (t : Nat) :
    ((s.manejarModoFiesta leds t).1).autoActivo = s.autoActivo := by
  unfold SistemaModos.manejarModoFiesta
  dsimp only
  split_ifs <;> rfl

theorem aplicarOp_modo_inv (s : SistemaModos) (op : ModosOp)
    (h : 0 ≤ s.modoActual ∧ s.modoActual ≤ 5) :
    0 ≤ (aplicarOp s op).modoActual ∧ (aplicarOp s op).modoActual ≤ 5 := by
  cases op with
  | cambiar n =>
      show 0 ≤ (s.cambiarModo n).modoActual ∧ (s.cambiarModo n).modoActual ≤ 5
      unfold SistemaModos.cambiarModo
      split_ifs with hn
      · simpa using hn
      · exact h
  | cambiarAuto => simp [aplicarOp, SistemaModos.cambiarModoAuto]
  | tikAuto => simpa [aplicarOp, SistemaModos.toggleAuto] using h
  | tikForzar => simpa [aplicarOp, SistemaModos.toggleForzarEncendido] using h
  | brillo v t =>
      show 0 ≤ ((s.getBrilloPorModo v t).2).modoActual ∧
        ((s.getBrilloPorModo v t).2).modoActual ≤ 5
      rw [getBrillo_modoActual]
      exact h
  | fiesta leds t =>
      show 0 ≤ ((s.manejarModoFiesta leds t).1).modoActual ∧
        ((s.manejarModoFiesta leds t).1).modoActual ≤ 5
      rw [fiesta_modoActual]
      exact h

theorem foldl_modo_inv (ops : List ModosOp) :
    ∀ s : SistemaModos, 0 ≤ s.modoActual ∧ s.modoActual ≤ 5 →
      0 ≤ (ops.foldl aplicarOp s).modoActual ∧ (ops.foldl aplicarOp s).modoActual ≤ 5 := by
  induction ops with
  | nil => exact fun s h => h
  | cons op rest ih => exact fun s h => ih _ (aplicarOp_modo_inv s op h)

theorem modo_valido_consecuencias (s : SistemaModos)
    (h0 : 0 ≤ s.modoActual) (h5 : s.modoActual ≤ 5) :
    (s.getModoActual).isSome = true ∧
    ∀ v : Int, ∀ t : Nat,
      (s.getBrilloPorModo v t).1 ∈ ([51, 102, 76, 0, 255, -1] : List Int) := by
  have hm : s.modoActual = 0 ∨ s.modoActual = 1 ∨ s.modoActual = 2 ∨
      s.modoActual = 3 ∨ s.modoActual = 4 ∨ s.modoActual = 5 := by omega
  constructor
  · unfold SistemaModos.getModoActual SistemaModos.nombresModos
    rcases hm with h | h | h | h | h | h <;> simp [h]
  · intro v t
    unfold SistemaModos.getBrilloPorModo
    rcases hm with h | h | h | h | h | h
    · simp [h]
    · simp [h]
    · simp [h]
    · simp [h]
    · simp only [h]
      norm_num
      split_ifs <;> simp
    · simp [h]

/-- C9: after any sequence of operations on a fresh `SistemaModos`, the mode
index stays in 0..5, so the name-table lookup of `getModoActual` is in bounds
and `getBrilloPorModo` only ever produces a listed per-mode brightness (never
the default branch's 100). -/
theorem C9_modo_invariante (ops : List ModosOp) :
    (0 ≤ (ejecutarOps ops).modoActual ∧ (ejecutarOps ops).modoActual ≤ 5) ∧
    ((ejecutarOps ops).getModoActual).isSome = true ∧
    ∀ v : Int, ∀ t : Nat,
      ((ejecutarOps ops).getBrilloPorModo v t).1 ∈ ([51, 102, 76, 0, 255, -1] : List Int) := by
  have h := foldl_modo_inv ops SistemaModos.nuevo (by decide)
  have hc := modo_valido_consecuencias _ h.1 h.2
  exact ⟨h, hc.1, hc.2⟩

theorem atajo_autoActivo (s : SistemaModos) (h : s.autoActivo = true) :
    (atajoForzarAuto s).autoActivo = true := by
  unfold atajoForzarAuto SistemaModos.toggleForzarEncendido SistemaModos.cambiarModoAuto
  split_ifs <;> simp [h]

theorem cambiarModo_autoActivo (s : SistemaModos) (n : Int) :
    (s.cambiarModo n).autoActivo = s.autoActivo := by
  unfold SistemaModos.cambiarModo
  split_ifs <;> rfl

theorem faseManualPaso_modos (st : LoopState) (niveles : List Bool) (now : Nat) (i : Nat) :
    (faseManualPaso st niveles now i).modos = st.modos := rfl

theorem foldl_paso_modos (niveles : List Bool) (now : Nat) :
    ∀ (l : List Nat) (st : LoopState),
      (l.foldl (fun acc k => faseManualPaso acc niveles now (k + 1)) st).modos = st.modos := by
  intro l
  induction l with
  | nil => exact fun st => rfl
  | cons k ks ih => exact fun st => (ih _).trans (faseManualPaso_modos st niveles now (k + 1))

theorem faseManual_modos (st : LoopState) (niveles : List Bool) (now : Nat) :
    (faseManual st niveles now).modos = st.modos := by
  unfold faseManual
  split_ifs
  · exact foldl_paso_modos niveles now (List.range 8) st
  · rfl

theorem faseAplicar_autoActivo (st : LoopState) (v : Int) (now : Nat) :
    ((faseAplicar st v now).modos).autoActivo = st.modos.autoActivo := by
  unfold faseAplicar
  dsimp only
  split_ifs
  · rfl
  · exact fiesta_autoActivo st.modos st.leds now
  · exact getBrillo_autoActivo st.modos v now
  · exact getBrillo_autoActivo st.modos v now
  · exact getBrillo_autoActivo st.modos v now

theorem faseAtajo_autoActivo (st : LoopState) (nivel0 : Bool) (now : Nat)
    (h : st.modos.autoActivo = true) :
    ((faseAtajo st nivel0 now).modos).autoActivo = true := by
  unfold faseAtajo
  dsimp only
  split_ifs
  · exact atajo_autoActivo st.modos h
  · exact h

theorem cicloLoop_autoActivo (st : LoopState) (inp : LoopInput)
    (h : st.modos.autoActivo = true) :
    ((cicloLoop st inp).modos).autoActivo = true := by
  unfold cicloLoop
  rw [faseAplicar_autoActivo, faseManual_modos]
  refine faseAtajo_autoActivo _ _ _ ?_
  show ((st.modos.cambiarModo (Potenciometro.getModo inp.potValor)).autoActivo) = true
  rw [cambiarModo_autoActivo]
  exact h

theorem ejecutarLoop_autoActivo :
    ∀ (inputs : List LoopInput) (st : LoopState), st.modos.autoActivo = true →
      ((ejecutarLoop st inputs).modos).autoActivo = true := by
  intro inputs
  induction inputs with
  | nil => exact fun st h => h
  | cons inp rest ih => exact fun st h => ih _ (cicloLoop_autoActivo st inp h)

theorem getBrillo_fijo (s : SistemaModos) (v : Int) (t : Nat) (m b : Int)
    (hm : s.modoActual = m)
    (hb : (m = 0 ∧ b = 51) ∨ (m = 1 ∧ b = 102) ∨ (m = 2 ∧ b = 76)) :
    s.getBrilloPorModo v t = (b, s) := by
  unfold SistemaModos.getBrilloPorModo
  rcases hb with ⟨rfl, rfl⟩ | ⟨rfl, rfl⟩ | ⟨rfl, rfl⟩ <;> simp [hm]

theorem faseAplicar_modo_fijo (st : LoopState) (v : Int) (now : Nat)
    (hauto : st.modos.autoActivo = true) :
    (st.modos.modoActual = 0 →
       (faseAplicar st v now).leds = st.leds.map (fun l => l.setBrillo 51)) ∧
    (st.modos.modoActual = 1 →
       (faseAplicar st v now).leds = st.leds.map (fun l => l.setBrillo 102)) ∧
    (st.modos.modoActual = 2 →
       (faseAplicar st v now).leds = st.leds.map (fun l => l.setBrillo 76)) := by
  refine ⟨fun h0 => ?_, fun h1 => ?_, fun h2 => ?_⟩ <;>
    [have hg := getBrillo_fijo st.modos v now 0 51 h0 (by norm_num);
     have hg := getBrillo_fijo st.modos v now 1 102 h1 (by norm_num);
     have hg := getBrillo_fijo st.modos v now 2 76 h2 (by norm_num)] <;>
    · unfold faseAplicar
      simp [SistemaModos.esModoManual, SistemaModos.esModoFiesta, SistemaModos.esModoAuto,
        SistemaModos.isAutoActivo, hg, hauto]
      simp_all

/-- C5: outside MANUAL and FIESTA, the computed brightness is written uniformly
to all outputs exactly when `esModoAuto() || isAutoActivo()` holds (otherwise
the LEDs are untouched); in particular in NOCHE mode with `autoActivo = true`
every output ends at brightness 51 regardless of the sensor value. -/
theorem C5_aplicar_uniforme (st : LoopState) (v : Int) (now : Nat)
    (h3 : st.modos.modoActual ≠ 3) (h5 : st.modos.modoActual ≠ 5) :
    ((st.modos.esModoAuto || st.modos.isAutoActivo) = false →
       (faseAplicar st v now).leds = st.leds) ∧
    ((st.modos.esModoAuto || st.modos.isAutoActivo) = true →
       (faseAplicar st v now).leds =
         st.leds.map (fun l => l.setBrillo (st.modos.getBrilloPorModo v now).1)) ∧
    (st.modos.modoActual = 0 → st.modos.autoActivo = true →
       ((faseAplicar st v now).leds.all (fun l => l.brillo == 51)) = true) := by
  have hman : st.modos.esModoManual = false := by
    simp [SistemaModos.esModoManual, h5]
  have hfie : st.modos.esModoFiesta = false := by
    simp [SistemaModos.esModoFiesta, h3]
  have hA : (st.modos.getBrilloPorModo v now).2.esModoAuto = st.modos.esModoAuto := by
    simp [SistemaModos.esModoAuto, getBrillo_modoActual]
  have hAA : (st.modos.getBrilloPorModo v now).2.isAutoActivo = st.modos.isAutoActivo := by
    simp [SistemaModos.isAutoActivo, getBrillo_autoActivo]
  have hnn : (st.modos.getBrilloPorModo v now).1 ≥ 0 := getBrillo_nonneg st.modos v now h5
  refine ⟨fun hg => ?_, fun hg => ?_, fun h0 hauto => ?_⟩
  · unfold faseAplicar
    dsimp only
    rw [hman, hfie]
    simp only [Bool.false_eq_true, if_false]
    rw [if_pos hnn, if_neg]
    rw [hA, hAA, hg]
    simp
  · unfold faseAplicar
    dsimp only
    rw [hman, hfie]
    simp only [Bool.false_eq_true, if_false]
    rw [if_pos hnn, if_pos]
    rw [hA, hAA, hg]
  · have hfix := (faseAplicar_modo_fijo st v now hauto).1 h0
    rw [hfix]
    simp [LED.setBrillo, LED.escribir, constrain]

/-- Witness for C5: from the post-setup state (mode NOCHE, auto enabled) one
apply phase leaves every LED at brightness 51. -/
theorem C5_aplicar_uniforme_witness :
    ((faseAplicar estadoInicial 0 0).leds.all (fun l => l.brillo == 51)) = true :=
  (C5_aplicar_uniforme estadoInicial 0 0 (by decide) (by decide)).2.2 rfl rfl

/-- C10: `autoActivo` is `true` in every state the controller loop can reach
from the post-setup state (it starts `true`, `cambiarModoAuto` only sets it,
and `toggleAuto` is never invoked from the loop), so the
`esModoAuto() || isAutoActivo()` gate always passes; consequently whenever the
current mode is NOCHE/LECTURA/RELAJ the apply phase writes the fixed
brightness to every LED. -/
theorem C10_autoActivo_invariante :
    (∀ inputs : List LoopInput,
       (ejecutarLoop estadoInicial inputs).modos.autoActivo = true ∧
       ((ejecutarLoop estadoInicial inputs).modos.esModoAuto ||
        (ejecutarLoop estadoInicial inputs).modos.isAutoActivo) = true) ∧
    (∀ (st : LoopState) (v : Int) (now : Nat), st.modos.autoActivo = true →
       (st.modos.modoActual = 0 →
          (faseAplicar st v now).leds = st.leds.map (fun l => l.setBrillo 51)) ∧
       (st.modos.modoActual = 1 →
          (faseAplicar st v now).leds = st.leds.map (fun l => l.setBrillo 102)) ∧
       (st.modos.modoActual = 2 →
          (faseAplicar st v now).leds = st.leds.map (fun l => l.setBrillo 76))) := by
  constructor
  · intro inputs
    have h := ejecutarLoop_autoActivo inputs estadoInicial rfl
    exact ⟨h, by simp [SistemaModos.isAutoActivo, h]⟩
  · exact faseAplicar_modo_fijo

/-- Witness for C10: the empty run keeps `autoActivo`, and from the post-setup
state (mode NOCHE) the apply phase writes 51 everywhere. -/
theorem C10_autoActivo_invariante_witness :
    (ejecutarLoop estadoInicial []).modos.autoActivo = true ∧
    (faseAplicar estadoInicial 0 0).leds = estadoInicial.leds.map (fun l => l.setBrillo 51) :=
  ⟨(C10_autoActivo_invariante.1 []).1,
   (C10_autoActivo_invariante.2 estadoInicial 0 0 rfl).1 rfl⟩

theorem listModify_get {α : Type} (f : α → α) :
    ∀ (l : List α) (k i : Nat),
      (listModify f k l)[i]? = if i = k then (l[i]?).map f else l[i]? := by
  intro l
  induction l with
  | nil =>
      intro k i
      simp [listModify]
  | cons x xs ih =>
      intro k i
      cases k with
      | zero =>
          cases i with
          | zero => simp [listModify]
          | succ j => simp [listModify]
      | succ k' =>
          cases i with
          | zero => simp [listModify]
          | succ j => simpa [listModify] using ih k' j

theorem listModify_length {α : Type} (f : α → α) :
    ∀ (k : Nat) (l : List α), (listModify f k l).length = l.length := by
  intro k l
  induction l generalizing k with
  | nil => cases k <;> rfl
  | cons x xs ih =>
      cases k with
      | zero => rfl
      | succ k' => simpa [listModify] using ih k'

theorem fiesta_step (s : SistemaModos) (leds : List LED) (t : Nat)
    (ht : elapsedMillis t s.ultimoCambioFiesta > 200) :
    s.manejarModoFiesta leds t =
      ({ s with ledFiestaActual := Int.tmod (s.ledFiestaActual + 1) (leds.length : Int),
                ultimoCambioFiesta := t },
       listModify LED.encender s.ledFiestaActual.toNat (leds.map LED.apagar)) := by
  unfold SistemaModos.manejarModoFiesta
  rw [if_pos ht]

theorem tmod_idx (m n : Nat) :
    Int.tmod ((m : Int) + 1) (n : Int) = (((m + 1) % n : Nat) : Int) := by
  have h : ((m : Int) + 1) = ((m + 1 : Nat) : Int) := by push_cast; ring
  rw [h]
  rfl

theorem step_leds_spec (leds : List LED) (m i : Nat) (hi : i < leds.length) :
    ((listModify LED.encender m (leds.map LED.apagar))[i]?).map LED.estaEncendido =
      some (decide (i = m)) := by
  rw [listModify_get]
  by_cases h : i = m
  · subst h
    simp [List.getElem?_map, List.getElem?_eq_getElem hi, LED.estaEncendido, LED.encender]
  · simp [h, List.getElem?_map, List.getElem?_eq_getElem hi, LED.estaEncendido, LED.apagar]

theorem fiestaRun_cons (s : SistemaModos) (leds : List LED) (t : Nat) (ts : List Nat) :
    fiestaRun s leds (t :: ts) =
      fiestaRun (s.manejarModoFiesta leds t).1 (s.manejarModoFiesta leds t).2 ts := rfl

theorem fiesta_step_full (s : SistemaModos) (leds : List LED) (t : Nat)
    (h0 : 0 ≤ s.ledFiestaActual) (hel : elapsedMillis t s.ultimoCambioFiesta > 200) :
    ((s.manejarModoFiesta leds t).2.length = leds.length) ∧
    (∀ i, i < leds.length →
       (((s.manejarModoFiesta leds t).2)[i]?).map LED.estaEncendido =
         some (decide (i = s.ledFiestaActual.toNat))) ∧
    ((s.manejarModoFiesta leds t).1.ledFiestaActual =
       (((s.ledFiestaActual.toNat + 1) % leds.length : Nat) : Int)) ∧
    ((s.manejarModoFiesta leds t).1.ultimoCambioFiesta = t) := by
  rw [fiesta_step s leds t hel]
  refine ⟨?_, ?_, ?_, rfl⟩
  · simp [listModify_length]
  · intro i hi
    exact step_leds_spec leds s.ledFiestaActual.toNat i hi
  · show Int.tmod (s.ledFiestaActual + 1) (leds.length : Int) = _
    conv_lhs => rw [← Int.toNat_of_nonneg h0]
    exact tmod_idx _ _

theorem fiestaRun_chase :
    ∀ (ts : List Nat) (s : SistemaModos) (leds : List LED),
      0 ≤ s.ledFiestaActual →
      s.ledFiestaActual.toNat < leds.length →
      espaciadosGt200 s.ultimoCambioFiesta ts →
      ts ≠ [] →
      ((fiestaRun s leds ts).2.length = leds.length ∧
       (∀ i, i < leds.length →
          (((fiestaRun s leds ts).2)[i]?).map LED.estaEncendido =
            some (decide (i = (s.ledFiestaActual.toNat + ts.length - 1) % leds.length))) ∧
       (fiestaRun s leds ts).1.ledFiestaActual =
         (((s.ledFiestaActual.toNat + ts.length) % leds.length : Nat) : Int)) := by
  intro ts
  induction ts with
  | nil =>
      intro s leds _ _ _ hne
      exact absurd rfl hne
  | cons t ts' ih =>
      intro s leds h0 hlt hsp _
      obtain ⟨hgap, hM, hsp'⟩ := hsp
      have hnpos : 0 < leds.length := Nat.lt_of_le_of_lt (Nat.zero_le _) hlt
      have hel : elapsedMillis t s.ultimoCambioFiesta > 200 := by
        rw [elapsedMillis_eq_sub t s.ultimoCambioFiesta (by omega) (by omega)]
        omega
      have hstep := fiesta_step_full s leds t h0 hel
      rw [fiestaRun_cons]
      cases ts' with
      | nil =>
          have hmod : (s.ledFiestaActual.toNat + 1 - 1) % leds.length =
              s.ledFiestaActual.toNat := by
            simpa using Nat.mod_eq_of_lt hlt
          refine ⟨hstep.1, ?_, ?_⟩
          · intro i hi
            rw [show ([t] : List Nat).length = 1 from rfl] at *
            rw [hmod]
            exact hstep.2.1 i hi
          · simpa using hstep.2.2.1
      | cons t' ts'' =>
          have hrec := ih (s.manejarModoFiesta leds t).1 (s.manejarModoFiesta leds t).2
            (by rw [hstep.2.2.1]; exact Int.natCast_nonneg _)
            (by rw [hstep.2.2.1, hstep.1, Int.toNat_natCast]; exact Nat.mod_lt _ hnpos)
            (by rw [hstep.2.2.2]; exact hsp')
            (by simp)
          have hlen' := hstep.1
          have hidx' : (s.manejarModoFiesta leds t).1.ledFiestaActual.toNat =
              (s.ledFiestaActual.toNat + 1) % leds.length := by
            rw [hstep.2.2.1, Int.toNat_natCast]
          refine ⟨hrec.1.trans hlen', ?_, ?_⟩
          · intro i hi
            have hi' : i < (s.manejarModoFiesta leds t).2.length := by omega
            have h2 := hrec.2.1 i hi'
            rw [hidx', hlen'] at h2
            have harith : ((s.ledFiestaActual.toNat + 1) % leds.length +
                (t' :: ts'').length - 1) % leds.length =
                (s.ledFiestaActual.toNat + (t :: t' :: ts'').length - 1) % leds.length := by
              have e1 : (s.ledFiestaActual.toNat + 1) % leds.length + (t' :: ts'').length - 1
                  = (s.ledFiestaActual.toNat + 1) % leds.length + ts''.length := by
                simp only [List.length_cons]
                omega
              rw [e1, Nat.mod_add_mod]
              simp only [List.length_cons]
              congr 1
              omega
            rw [h2, harith]
          · have h3 := hrec.2.2
            rw [hidx', hlen'] at h3
            have e3 : ((s.ledFiestaActual.toNat + 1) % leds.length +
                (t' :: ts'').length) % leds.length =
                (s.ledFiestaActual.toNat + (t :: t' :: ts'').length) % leds.length := by
              rw [Nat.mod_add_mod]
              simp only [List.length_cons]
              congr 1
              omega
            rw [h3, e3]

/-- C3 fails as stated, on two counts, at a concrete run from the fresh state
with 8 off LEDs and calls at 201 ms and 401 ms.  The calls are spaced exactly
200 ms apart (so the claim's "at least 200 ms" condition holds: 201 ≥ 0 + 200
and 401 ≥ 201 + 200), yet the second call does not step (the code requires
strictly more than 200 ms), and the lit output is index 0, not index
(0 + 2) mod 8 = 2 as the claim's formula predicts. -/
theorem C3_counterexample :
    201 ≥ 0 + 200 ∧ 401 ≥ 201 + 200 ∧
    ((fiestaRun SistemaModos.nuevo ((List.replicate 8 LED.nuevo).map LED.apagar)
        [201, 401]).2[2]?).map LED.estaEncendido = some false ∧
    ((fiestaRun SistemaModos.nuevo ((List.replicate 8 LED.nuevo).map LED.apagar)
        [201, 401]).2[0]?).map LED.estaEncendido = some true := by
  decide

/-- C3 amended: a party-animation call steps only when strictly more than
200 ms have elapsed since the last recorded step; each step turns all outputs
off, turns on `outputs[partyIndex]` and advances the index modulo N; after
k ≥ 1 calls, each strictly more than 200 ms after the previous recorded step,
exactly one output is on, namely `outputs[(initialIndex + k - 1) mod N]`, and
`partyIndex = (initialIndex + k) mod N`. -/
theorem C3_amended_fiesta (s : SistemaModos) (leds : List LED) (ts : List Nat)
    (h0 : 0 ≤ s.ledFiestaActual) (hlt : s.ledFiestaActual.toNat < leds.length)
    (hts : espaciadosGt200 s.ultimoCambioFiesta ts) (hne : ts ≠ []) :
    (fiestaRun s leds ts).2.length = leds.length ∧
    (∀ i, i < leds.length →
       (((fiestaRun s leds ts).2)[i]?).map LED.estaEncendido =
         some (decide (i = (s.ledFiestaActual.toNat + ts.length - 1) % leds.length))) ∧
    (fiestaRun s leds ts).1.ledFiestaActual =
      (((s.ledFiestaActual.toNat + ts.length) % leds.length : Nat) : Int) :=
  fiestaRun_chase ts s leds h0 hlt hts hne

/-- Witness for C3 amended: from the fresh state with 8 off LEDs and calls at
201 ms and 402 ms (each more than 200 ms after the previous recorded step),
the party index ends at (0 + 2) mod 8 = 2. -/
theorem C3_amended_fiesta_witness :
    (fiestaRun SistemaModos.nuevo ((List.replicate 8 LED.nuevo).map LED.apagar)
        [201, 402]).1.ledFiestaActual = ((2 : Nat) : Int) := by
  have h := (C3_amended_fiesta SistemaModos.nuevo
      ((List.replicate 8 LED.nuevo).map LED.apagar) [201, 402]
      (by decide) (by decide)
      (by norm_num [espaciadosGt200, UINT32_MOD, SistemaModos.nuevo]) (by simp)).2.2
  simpa using h

end Casa
